import Mathlib

/-!
# Shallow embedding of the stock-advisor agent

This file embeds the core logic of `agente_conselheiro_de_acoes/agent.py`:
the decision engine (`decide`), the learning engine (`learn`), the volatility
estimator (`_calcular_volatilidade`), the metrics aggregator
(`_atualizar_metricas`) and the SQLite-backed decision ledger, and proves the
specification's claims about them.

Modelling choices:
* Prices and policy parameters are rationals (every Python float is a rational
  number; we use exact arithmetic, as the specification does).  The only
  irrational-valued quantity is the volatility, which involves `math.sqrt`;
  it lives in `ℝ`.
* The SQLite `history` table is a list of `DecisionRecord`s together with the
  next AUTOINCREMENT id; `SELECT ... WHERE outcome_evaluated = 0 ORDER BY id
  DESC LIMIT 1` is the pending record maximising `id` (`List.argmax`).
* Python exceptions (IndexError on an empty history, ZeroDivisionError in
  `delta`, `variacao_real` and `std_dev / avg`) are modelled by `Option`:
  a raising run returns `none`.
* The predictor (`MockLSTM.predict`) is random and out of scope per the
  specification; `decide` is parametrised by the predictor function.
* The human-readable learn messages are float-formatted strings in the source;
  we keep only their three distinguishable kinds (`Msg`).
* `_atualizar_metricas` additionally formats `taxa_de_acerto` and
  `lucro_acumulado_estimado` as `round(x * 100, 2)` percentages for display;
  we keep the raw ratio and raw sum (float display rounding is presentation).
-/

namespace Agente

/-- The three actions of the agent: COMPRAR (BUY), VENDER (SELL), MANTER (HOLD). -/
inductive Action where
  | COMPRAR
  | VENDER
  | MANTER
  deriving DecidableEq, Repr

/-- The agent's policy, as stored in `policy.json`. -/
structure Policy where
  threshold : ℚ
  learning_rate : ℚ
  min_threshold : ℚ
  max_threshold : ℚ
  deriving DecidableEq, Repr

/-- The default policy created by `_load_policy` on first run. -/
def default_policy : Policy :=
  { threshold := 0.01
    learning_rate := 0.05
    min_threshold := 0.002
    max_threshold := 0.05 }

/-- One row of the SQLite `history` table (a decision ledger entry).
The `date` column is wall-clock presentation data and is not modelled. -/
structure DecisionRecord where
  id : ℕ
  price_at_decision : ℚ
  predicted_price : ℚ
  action : Action
  threshold_used : ℚ
  volatility : ℝ
  learning_rate_used : Option ℚ
  real_return : Option ℚ
  outcome_evaluated : Bool

/-- The whole persistent state of the agent: the policy (`policy.json`) and
the ledger (`memory.db`), with the next AUTOINCREMENT id. -/
structure AgentState where
  policy : Policy
  history : List DecisionRecord
  next_id : ℕ

/-- A fresh agent: default policy, empty ledger, ids starting at 1. -/
def initial_state : AgentState :=
  { policy := default_policy, history := [], next_id := 1 }

/-- Sample mean of a list (`avg = sum(subset) / len(subset)`). -/
def sampleMean (l : List ℚ) : ℚ :=
  l.sum / (l.length : ℚ)

/-- Sample variance with Bessel's correction
(`variance = sum((x - avg) ** 2 for x in subset) / (len(subset) - 1)`). -/
def sampleVariance (l : List ℚ) : ℚ :=
  ((l.map fun x => (x - sampleMean l) ^ 2).sum) / ((l.length : ℚ) - 1)

/-- The last `window` elements of a price list (`prices[-window:]`). -/
def lastWindow (prices : List ℚ) (window : ℕ) : List ℚ :=
  prices.drop (prices.length - window)

/-- `_calcular_volatilidade(prices, window)`: default `0.01` on short
histories, otherwise the coefficient of variation `std_dev / avg` of the last
`window` prices.  The division `std_dev / avg` raises ZeroDivisionError in the
source when `avg = 0`; that run is `none` here. -/
noncomputable def calcular_volatilidade (prices : List ℚ) (window : ℕ) : Option ℝ :=
  if prices.length < window then
    some 0.01
  else
    let subset := lastWindow prices window
    let avg := sampleMean subset
    let variance := sampleVariance subset
    let std_dev := Real.sqrt (variance : ℝ)
    if avg = 0 then none else some (std_dev / (avg : ℝ))

/-- `_record_decision`: appends a new unevaluated row to the ledger, capturing
the base policy threshold and the volatility. -/
def record_decision (s : AgentState) (price pred : ℚ) (action : Action) (vol : ℝ) :
    AgentState :=
  { s with
    history := s.history ++
      [{ id := s.next_id
         price_at_decision := price
         predicted_price := pred
         action := action
         threshold_used := s.policy.threshold
         volatility := vol
         learning_rate_used := none
         real_return := none
         outcome_evaluated := false }]
    next_id := s.next_id + 1 }

/-- `SELECT id, action, price_at_decision FROM history WHERE
outcome_evaluated = 0 ORDER BY id DESC LIMIT 1`: the unevaluated record with
the largest id, if any. -/
def mostRecentPending (history : List DecisionRecord) : Option DecisionRecord :=
  (history.filter fun r => r.outcome_evaluated = false).argmax fun r => r.id

/-- `UPDATE history SET outcome_evaluated = 1, learning_rate_used = ?,
real_return = ? WHERE id = ?`. -/
def markEvaluated (history : List DecisionRecord) (trade_id : ℕ) (lr ret : ℚ) :
    List DecisionRecord :=
  history.map fun r =>
    if r.id = trade_id then
      { r with
        outcome_evaluated := true
        learning_rate_used := some lr
        real_return := some ret }
    else r

/-- The three distinguishable learn messages (the source strings also embed the
formatted `dynamic_lr`, which is presentation data). -/
inductive Msg where
  | aumentou_rigor
  | diminuiu_rigor
  | mantendo_rigor
  deriving DecidableEq, Repr

/-- `learn(current_price_today)`: evaluates the pending ledger record fetched
by `mostRecentPending`, adjusts and clamps the policy threshold, marks the
record evaluated.  Returns `some (new state, message?, variacao_real)`;
`none` models the ZeroDivisionError when `price_at_decision = 0`. -/
def learn (s : AgentState) (current_price_today : ℚ) :
    Option (AgentState × Option Msg × ℚ) :=
  match mostRecentPending s.history with
  | none => some (s, none, 0)
  | some last_trade =>
    if last_trade.price_at_decision = 0 then none
    else
      let variacao_real :=
        (current_price_today - last_trade.price_at_decision) / last_trade.price_at_decision
      let lucro_trade : ℚ :=
        match last_trade.action with
        | Action.COMPRAR => variacao_real
        | Action.VENDER => -variacao_real
        | Action.MANTER => 0
      let base_lr := s.policy.learning_rate
      let dynamic_lr := min (base_lr * (1 + |variacao_real| * 10)) 0.20
      let step :=
        if (last_trade.action = Action.COMPRAR ∧ variacao_real < 0) ∨
            (last_trade.action = Action.VENDER ∧ variacao_real > 0) then
          (s.policy.threshold * (1 + dynamic_lr), Msg.aumentou_rigor, true)
        else if last_trade.action = Action.MANTER ∧ |variacao_real| > s.policy.threshold then
          (s.policy.threshold * (1 - dynamic_lr), Msg.diminuiu_rigor, true)
        else
          (s.policy.threshold, Msg.mantendo_rigor, false)
      let new_threshold :=
        if step.2.2 then
          max s.policy.min_threshold (min s.policy.max_threshold step.1)
        else step.1
      some
        ({ s with
            policy := { s.policy with threshold := new_threshold }
            history := markEvaluated s.history last_trade.id dynamic_lr lucro_trade },
          some step.2.1, variacao_real)

/-- `decide(market_history)`, parametrised by the predictor.  Returns
`some (new state, action, predicted_price, delta)`; `none` models the
IndexError on an empty history, the ZeroDivisionError in
`_calcular_volatilidade`, and the ZeroDivisionError in `delta` when the
current price is zero. -/
noncomputable def decide (model : List ℚ → ℚ) (s : AgentState) (market_history : List ℚ) :
    Option (AgentState × Action × ℚ × ℚ) :=
  match market_history.getLast? with
  | none => none
  | some current_price =>
    let predicted_price := model market_history
    match calcular_volatilidade market_history 5 with
    | none => none
    | some volatility =>
      if current_price = 0 then none
      else
        let delta := (predicted_price - current_price) / current_price
        let threshold_base := s.policy.threshold
        let threshold_efetivo : ℝ := max (threshold_base : ℝ) (volatility * 0.5)
        let action :=
          if (delta : ℝ) > threshold_efetivo then Action.COMPRAR
          else if (delta : ℝ) < -threshold_efetivo then Action.VENDER
          else Action.MANTER
        some (record_decision s current_price predicted_price action volatility,
          action, predicted_price, delta)

/-- The derived metrics of `metrics.json` (raw ratio and raw sum; the source
formats them as rounded percentages for display — see the file header). -/
structure Metrics where
  total_operacoes_avaliadas : ℕ
  trades_ativos : ℕ
  taxa_de_acerto : ℚ
  lucro_acumulado_estimado : ℚ
  threshold_atual : ℚ
  deriving DecidableEq, Repr

/-- One step of the accumulation loop of `_atualizar_metricas`: MANTER rows
are skipped (`continue`); otherwise positive returns count as wins and the
return is added to the running profit. -/
def metricsStep (acc : ℕ × ℚ) (t : Action × ℚ) : ℕ × ℚ :=
  if t.1 = Action.MANTER then acc
  else ((if t.2 > 0 then acc.1 + 1 else acc.1), acc.2 + t.2)

/-- `_atualizar_metricas`: recomputes the metrics from all evaluated ledger
rows.  Returns `none` when there are no evaluated rows (the source returns
early and writes nothing). -/
def atualizar_metricas (history : List DecisionRecord) (threshold : ℚ) :
    Option Metrics :=
  let trades := (history.filter fun r => r.outcome_evaluated = true).map
    fun r => (r.action, r.real_return.getD 0)
  if trades.length = 0 then none
  else
    let step := trades.foldl metricsStep ((0 : ℕ), (0 : ℚ))
    let trades_ativos := trades.filter fun t => t.1 ≠ Action.MANTER
    let win_rate : ℚ :=
      if trades_ativos.length > 0 then (step.1 : ℚ) / (trades_ativos.length : ℚ) else 0
    some
      { total_operacoes_avaliadas := trades.length
        trades_ativos := trades_ativos.length
        taxa_de_acerto := win_rate
        lucro_acumulado_estimado := step.2
        threshold_atual := threshold }

end Agente

namespace Agente

/-- A fresh (unevaluated) ledger row used in concrete examples. -/
def exRec (i : ℕ) (price : ℚ) (a : Action) (thr : ℚ) : DecisionRecord :=
  { id := i
    price_at_decision := price
    predicted_price := price
    action := a
    threshold_used := thr
    volatility := 0
    learning_rate_used := none
    real_return := none
    outcome_evaluated := false }

/-- An evaluated ledger row used in concrete examples. -/
def exEval (i : ℕ) (price : ℚ) (a : Action) (lr ret : ℚ) : DecisionRecord :=
  { id := i
    price_at_decision := price
    predicted_price := price
    action := a
    threshold_used := 0.01
    volatility := 0
    learning_rate_used := some lr
    real_return := some ret
    outcome_evaluated := true }

/-- A ledger state with two pending records (ids 1 and 2), for C2. -/
def c2state : AgentState :=
  { policy := default_policy
    history := [exRec 1 100 Action.COMPRAR 0.01, exRec 2 100 Action.COMPRAR 0.01]
    next_id := 3 }

/-- A state whose threshold already sits at `max_threshold`, with one pending
COMPRAR record at price 100, for the C4 counterexample. -/
def c4state : AgentState :=
  { policy := { threshold := 0.05, learning_rate := 0.05,
                min_threshold := 0.002, max_threshold := 0.05 }
    history := [exRec 1 100 Action.COMPRAR 0.05]
    next_id := 2 }

/-- Default policy with one pending COMPRAR record at price 100, for the C4
and C5 witnesses. -/
def c5state : AgentState :=
  { policy := default_policy
    history := [exRec 1 100 Action.COMPRAR 0.01]
    next_id := 2 }

/-- A state whose only ledger record is already evaluated, for the C8 witness. -/
def c8state : AgentState :=
  { policy := default_policy
    history := [exEval 1 100 Action.COMPRAR 0.05 0.1]
    next_id := 2 }

/-- Three evaluated records — a winning COMPRAR, a losing VENDER and a MANTER —
for the C9 metrics witness. -/
def c9history : List DecisionRecord :=
  [exEval 1 100 Action.COMPRAR 0.05 0.02,
   exEval 2 100 Action.VENDER 0.05 (-0.03),
   exEval 3 100 Action.MANTER 0.05 0]

/-- A five-price history whose mean is 0 but whose last price is nonzero,
for C10. -/
def c10prices : List ℚ := [-2, -1, 0, 1, 2]

end Agente

section LedgerLemmas

open Agente

/-- When every ledger row is evaluated, the pending query is empty. -/
lemma mostRecentPending_eq_none (l : List DecisionRecord)
    (h : ∀ r ∈ l, r.outcome_evaluated = true) : mostRecentPending l = none := by
  unfold mostRecentPending
  rw [List.argmax_eq_none, List.filter_eq_nil_iff]
  intro a ha
  simp [h a ha]

/-- A record returned by the pending query is an unevaluated row of the ledger. -/
lemma mostRecentPending_mem {l : List DecisionRecord} {r : DecisionRecord}
    (hmp : mostRecentPending l = some r) : r ∈ l ∧ r.outcome_evaluated = false := by
  have hmem : r ∈ l.filter fun q => q.outcome_evaluated = false :=
    List.argmax_mem (Option.mem_def.mpr hmp)
  have := List.mem_filter.mp hmem
  simpa using this

/-- The pending query maximises the id among unevaluated rows
(`ORDER BY id DESC LIMIT 1`). -/
lemma mostRecentPending_maxId {l : List DecisionRecord} {r : DecisionRecord}
    (hmp : mostRecentPending l = some r) :
    ∀ q ∈ l, q.outcome_evaluated = false → q.id ≤ r.id := by
  intro q hq hqe
  have hqf : q ∈ l.filter fun x => x.outcome_evaluated = false :=
    List.mem_filter.mpr ⟨hq, by simp [hqe]⟩
  have := List.not_lt_of_mem_argmax hqf (Option.mem_def.mpr hmp)
  omega

end LedgerLemmas

/-- **C3.** For every policy satisfying
`min_threshold ≤ threshold ≤ max_threshold` before the call, and every current
price, after any (non-raising) `learn` call the policy again satisfies
`min_threshold ≤ threshold ≤ max_threshold`: every threshold mutation goes
through the clamp. -/
theorem C3_learn_preserves_clamp_invariant
    (s : Agente.AgentState) (p : ℚ) (s' : Agente.AgentState)
    (m : Option Agente.Msg) (v : ℚ)
    (h1 : s.policy.min_threshold ≤ s.policy.threshold)
    (h2 : s.policy.threshold ≤ s.policy.max_threshold)
    (hl : Agente.learn s p = some (s', m, v)) :
    s'.policy.min_threshold ≤ s'.policy.threshold ∧
      s'.policy.threshold ≤ s'.policy.max_threshold := by
  cases hmp : Agente.mostRecentPending s.history with
  | none =>
    simp only [Agente.learn, hmp] at hl
    obtain ⟨rfl, -, -⟩ := by simpa using hl
    exact ⟨h1, h2⟩
  | some r =>
    by_cases hz : r.price_at_decision = 0
    · simp [Agente.learn, hmp, hz] at hl
    · simp only [Agente.learn, hmp, if_neg hz, Option.some.injEq] at hl
      obtain ⟨rfl, -, -⟩ := hl
      have hmm : s.policy.min_threshold ≤ s.policy.max_threshold := h1.trans h2
      by_cases hA : (r.action = Agente.Action.COMPRAR ∧
            (p - r.price_at_decision) / r.price_at_decision < 0) ∨
          (r.action = Agente.Action.VENDER ∧
            (p - r.price_at_decision) / r.price_at_decision > 0)
      · rw [if_pos hA]
        refine ⟨by simp, ?_⟩
        simp [sup_le_iff, hmm]
      · rw [if_neg hA]
        by_cases hB : r.action = Agente.Action.MANTER ∧
            |(p - r.price_at_decision) / r.price_at_decision| > s.policy.threshold
        · rw [if_pos hB]
          refine ⟨by simp, ?_⟩
          simp [sup_le_iff, hmm]
        · rw [if_neg hB]
          exact ⟨h1, h2⟩

/-- **C8.** With no unevaluated record in the ledger, `learn` returns
`(absent, 0)` for every current price and leaves the whole state — policy and
ledger — unchanged; repeating the call therefore yields the same result. -/
theorem C8_learn_no_pending_noop
    (s : Agente.AgentState) (p : ℚ)
    (h : ∀ r ∈ s.history, r.outcome_evaluated = true) :
    Agente.learn s p = some (s, none, 0) := by
  simp only [Agente.learn, mostRecentPending_eq_none s.history h]

/-- **C7.** `decide` fails — surfaces the error instead of silently
defaulting — whenever the price history is empty or its last element (the
current price) is zero. -/
theorem C7_decide_fails_on_degenerate_input
    (model : List ℚ → ℚ) (s : Agente.AgentState) (h : List ℚ)
    (hcond : h = [] ∨ h.getLast? = some 0) :
    Agente.decide model s h = none := by
  rcases hcond with rfl | hlast
  · simp [Agente.decide]
  · cases hv : Agente.calcular_volatilidade h 5 with
    | none => simp [Agente.decide, hlast, hv]
    | some v => simp [Agente.decide, hlast, hv]

/-- **C1.** For every non-empty price history whose last element (the current
price) is nonzero — and on which the volatility computation succeeds, so that
`decide` returns at all — the returned action is COMPRAR exactly when
`delta > threshold_efetivo`, VENDER exactly when `delta < -threshold_efetivo`,
and MANTER otherwise, where `delta = (predicted - current) / current` and
`threshold_efetivo = max(policy.threshold, volatility * 0.5)`; in particular
the effective threshold is never below the base policy threshold.  (The policy
threshold is assumed nonnegative, which the documented policy invariant
`0.002 = min_threshold ≤ threshold` guarantees.) -/
theorem C1_decide_action_classification
    (model : List ℚ → ℚ) (s : Agente.AgentState) (h : List ℚ)
    (current : ℚ) (v : ℝ)
    (hthr : 0 ≤ s.policy.threshold)
    (hlast : h.getLast? = some current) (hc : current ≠ 0)
    (hv : Agente.calcular_volatilidade h 5 = some v) :
    ∃ a s', Agente.decide model s h =
        some (s', a, model h, (model h - current) / current) ∧
      (a = Agente.Action.COMPRAR ↔
        (((model h - current) / current : ℚ) : ℝ) >
          max (s.policy.threshold : ℝ) (v * 0.5)) ∧
      (a = Agente.Action.VENDER ↔
        (((model h - current) / current : ℚ) : ℝ) <
          -max (s.policy.threshold : ℝ) (v * 0.5)) ∧
      (a = Agente.Action.MANTER ↔
        ¬((((model h - current) / current : ℚ) : ℝ) >
            max (s.policy.threshold : ℝ) (v * 0.5)) ∧
        ¬((((model h - current) / current : ℚ) : ℝ) <
            -max (s.policy.threshold : ℝ) (v * 0.5))) ∧
      (s.policy.threshold : ℝ) ≤ max (s.policy.threshold : ℝ) (v * 0.5) := by
  have het : (0 : ℝ) ≤ max (s.policy.threshold : ℝ) (v * 0.5) :=
    le_max_of_le_left (by exact_mod_cast hthr)
  by_cases h1 :
      (((model h - current) / current : ℚ) : ℝ) > max (s.policy.threshold : ℝ) (v * 0.5)
  · refine ⟨Agente.Action.COMPRAR,
      Agente.record_decision s current (model h) Agente.Action.COMPRAR v,
      ?_, iff_of_true rfl h1, ?_, ?_, le_max_left _ _⟩
    · simp only [Agente.decide, hlast, hv, if_neg hc, if_pos h1]
    · refine iff_of_false (by decide) (not_lt.mpr ?_)
      calc -max (s.policy.threshold : ℝ) (v * 0.5) ≤ 0 := neg_nonpos_of_nonneg het
      _ ≤ max (s.policy.threshold : ℝ) (v * 0.5) := het
      _ ≤ _ := le_of_lt h1
    · exact iff_of_false (by decide) fun hh => hh.1 h1
  · by_cases h2 :
        (((model h - current) / current : ℚ) : ℝ) < -max (s.policy.threshold : ℝ) (v * 0.5)
    · refine ⟨Agente.Action.VENDER,
        Agente.record_decision s current (model h) Agente.Action.VENDER v,
        ?_, iff_of_false (by decide) h1, iff_of_true rfl h2,
        iff_of_false (by decide) fun hh => hh.2 h2, le_max_left _ _⟩
      simp only [Agente.decide, hlast, hv, if_neg hc, if_neg h1, if_pos h2]
    · exact ⟨Agente.Action.MANTER,
        Agente.record_decision s current (model h) Agente.Action.MANTER v,
        by simp only [Agente.decide, hlast, hv, if_neg hc, if_neg h1, if_neg h2],
        iff_of_false (by decide) h1, iff_of_false (by decide) h2,
        iff_of_true rfl ⟨h1, h2⟩, le_max_left _ _⟩

section C2Helpers

open Agente

/-- On the two-pending-record ledger the SQL query returns the id-2 record. -/
lemma mostRecentPending_c2state :
    mostRecentPending c2state.history = some (exRec 2 100 Action.COMPRAR 0.01) := rfl

end C2Helpers

/-- **C2, counterexample.** The claim says `learn` evaluates the *oldest-by-id*
(smallest-id) unevaluated record.  On a ledger with two pending records
(ids 1 and 2) the query `ORDER BY id DESC LIMIT 1` returns the id-2 record,
and `learn` evaluates it, leaving the smallest-id record still pending. -/
theorem C2_counterexample_learn_picks_largest_id :
    Agente.mostRecentPending Agente.c2state.history =
      some (Agente.exRec 2 100 Agente.Action.COMPRAR 0.01) ∧
    (Agente.exRec 1 100 Agente.Action.COMPRAR 0.01) ∈ Agente.c2state.history ∧
    (Agente.exRec 1 100 Agente.Action.COMPRAR 0.01).outcome_evaluated = false ∧
    (Agente.exRec 1 100 Agente.Action.COMPRAR 0.01).id = 1 ∧
    (Agente.exRec 2 100 Agente.Action.COMPRAR 0.01).id = 2 ∧
    (Agente.learn Agente.c2state 110).map
        (fun out => out.1.history.map fun r => (r.id, r.outcome_evaluated)) =
      some [(1, false), (2, true)] := by
  refine ⟨rfl, by simp [Agente.c2state], rfl, rfl, rfl, ?_⟩
  simp only [Agente.learn, mostRecentPending_c2state]
  norm_num [Agente.exRec, Agente.markEvaluated, Agente.c2state]

/-- **C2, amended.** For every ledger state containing at least one unevaluated
record, `mostRecentPending` returns an unevaluated record whose id is the
*largest* (most recent by insertion order) among unevaluated records, and
`learn` evaluates exactly that record: in the resulting ledger every row with
that id is evaluated and every other row is carried over unchanged. -/
theorem C2_amended_learn_evaluates_largest_id
    (s : Agente.AgentState) (p : ℚ) (r : Agente.DecisionRecord)
    (out : Agente.AgentState × Option Agente.Msg × ℚ)
    (hmp : Agente.mostRecentPending s.history = some r)
    (hl : Agente.learn s p = some out) :
    r ∈ s.history ∧ r.outcome_evaluated = false ∧
    (∀ q ∈ s.history, q.outcome_evaluated = false → q.id ≤ r.id) ∧
    (∀ q ∈ out.1.history, q.id = r.id → q.outcome_evaluated = true) ∧
    (∀ q ∈ out.1.history, q.id ≠ r.id → q ∈ s.history) := by
  obtain ⟨hrmem, hrpend⟩ := mostRecentPending_mem hmp
  refine ⟨hrmem, hrpend, mostRecentPending_maxId hmp, ?_, ?_⟩
  · by_cases hz : r.price_at_decision = 0
    · simp [Agente.learn, hmp, hz] at hl
    · simp only [Agente.learn, hmp, if_neg hz, Option.some.injEq] at hl
      subst hl
      intro q hq hqid
      simp only [Agente.markEvaluated, List.mem_map] at hq
      obtain ⟨orig, -, horig⟩ := hq
      by_cases hid : orig.id = r.id
      · rw [if_pos hid] at horig
        rw [← horig]
      · rw [if_neg hid] at horig
        exact absurd (horig ▸ hqid) hid
  · by_cases hz : r.price_at_decision = 0
    · simp [Agente.learn, hmp, hz] at hl
    · simp only [Agente.learn, hmp, if_neg hz, Option.some.injEq] at hl
      subst hl
      intro q hq hqid
      simp only [Agente.markEvaluated, List.mem_map] at hq
      obtain ⟨orig, horigmem, horig⟩ := hq
      by_cases hid : orig.id = r.id
      · rw [if_pos hid] at horig
        exact absurd (horig ▸ hid) hqid
      · rw [if_neg hid] at horig
        exact horig ▸ horigmem

section C4Helpers

open Agente

/-- The pending query on `c4state`. -/
lemma mostRecentPending_c4state :
    mostRecentPending c4state.history = some (exRec 1 100 Action.COMPRAR 0.05) := rfl

/-- The pending query on `c5state`. -/
lemma mostRecentPending_c5state :
    mostRecentPending c5state.history = some (exRec 1 100 Action.COMPRAR 0.01) := rfl

/-- Concrete run: on `c5state` (threshold 0.01), `learn 90` evaluates the
pending COMPRAR record at price 100 (`variacao_real = -0.1`, wrong direction,
`dynamic_lr = 0.1`) and raises the threshold to `0.011`. -/
lemma learn_c5state_90 :
    learn c5state 90 =
      some (⟨⟨0.011, 0.05, 0.002, 0.05⟩,
        [⟨1, 100, 100, Action.COMPRAR, 0.01, 0, some 0.1, some (-0.1), true⟩], 2⟩,
        some Msg.aumentou_rigor, -0.1) := by
  simp only [Agente.learn, mostRecentPending_c5state]
  norm_num [exRec, markEvaluated, c5state, default_policy, min_def, max_def, abs]

end C4Helpers

/-- **C4, counterexample.** The claim says a wrong-direction BUY strictly
increases the threshold.  If the threshold already sits at `max_threshold`
(here 0.05), the multiplicative increase is clamped straight back: after a
BUY at price 100 followed by `learn 90` (so the realized change is negative),
the threshold is unchanged, not strictly larger. -/
theorem C4_counterexample_clamp_blocks_increase :
    Agente.mostRecentPending Agente.c4state.history =
      some (Agente.exRec 1 100 Agente.Action.COMPRAR 0.05) ∧
    (Agente.exRec 1 100 Agente.Action.COMPRAR 0.05).action = Agente.Action.COMPRAR ∧
    (Agente.exRec 1 100 Agente.Action.COMPRAR 0.05).price_at_decision = 100 ∧
    (90 : ℚ) < 100 ∧
    Agente.c4state.policy.threshold = 0.05 ∧
    (Agente.learn Agente.c4state 90).map (fun out => out.1.policy.threshold) =
      some 0.05 := by
  refine ⟨rfl, rfl, rfl, by norm_num, rfl, ?_⟩
  simp only [Agente.learn, mostRecentPending_c4state]
  norm_num [Agente.exRec, Agente.c4state, Agente.markEvaluated, min_def, max_def, abs]

/-- **C4, amended.** Suppose the pending record has positive decision price
`p1` and the base learning rate is positive.  After `learn p2`: if the record
is a COMPRAR and `p2 < p1`, the threshold strictly increases *provided it was
strictly below `max_threshold`* (and positive); if the record is a MANTER and
`|p2 - p1| / p1 > threshold`, the threshold strictly decreases *provided it
was strictly above `min_threshold`* (and positive).  The provisos are forced:
at the clamp boundary the adjustment is clamped back (see the counterexample),
and with nonpositive prices or learning rate the adjustment can vanish. -/
theorem C4_amended_threshold_adjustment
    (s : Agente.AgentState) (p2 : ℚ) (r : Agente.DecisionRecord)
    (s' : Agente.AgentState) (m : Option Agente.Msg) (v : ℚ)
    (hmp : Agente.mostRecentPending s.history = some r)
    (hlr : 0 < s.policy.learning_rate)
    (hp1 : 0 < r.price_at_decision)
    (hl : Agente.learn s p2 = some (s', m, v)) :
    (r.action = Agente.Action.COMPRAR → p2 < r.price_at_decision →
      0 < s.policy.threshold → s.policy.threshold < s.policy.max_threshold →
      s.policy.threshold < s'.policy.threshold) ∧
    (r.action = Agente.Action.MANTER →
      |p2 - r.price_at_decision| / r.price_at_decision > s.policy.threshold →
      s.policy.min_threshold < s.policy.threshold → 0 < s.policy.threshold →
      s'.policy.threshold < s.policy.threshold) := by
  have hz : ¬r.price_at_decision = 0 := ne_of_gt hp1
  simp only [Agente.learn, hmp, if_neg hz, Option.some.injEq, Prod.mk.injEq] at hl
  obtain ⟨rfl, -, -⟩ := hl
  have hdyn : 0 < min (s.policy.learning_rate *
      (1 + |(p2 - r.price_at_decision) / r.price_at_decision| * 10)) 0.20 := by
    refine lt_min (mul_pos hlr ?_) (by norm_num)
    positivity
  constructor
  · intro hact hp2 ht htmax
    have hvar : (p2 - r.price_at_decision) / r.price_at_decision < 0 :=
      div_neg_of_neg_of_pos (by linarith) hp1
    rw [if_pos (Or.inl ⟨hact, hvar⟩)]
    have htt' : s.policy.threshold < s.policy.threshold *
        (1 + min (s.policy.learning_rate *
          (1 + |(p2 - r.price_at_decision) / r.price_at_decision| * 10)) 0.20) := by
      nlinarith [hdyn, ht]
    have hgoal : s.policy.threshold <
        max s.policy.min_threshold (min s.policy.max_threshold
          (s.policy.threshold * (1 + min (s.policy.learning_rate *
            (1 + |(p2 - r.price_at_decision) / r.price_at_decision| * 10)) 0.20))) :=
      lt_of_lt_of_le (lt_min htmax htt') (le_max_right _ _)
    simpa using hgoal
  · intro hact habs hmin ht
    have hc1 : ¬((r.action = Agente.Action.COMPRAR ∧
          (p2 - r.price_at_decision) / r.price_at_decision < 0) ∨
        (r.action = Agente.Action.VENDER ∧
          (p2 - r.price_at_decision) / r.price_at_decision > 0)) := by
      rintro (⟨h1, -⟩ | ⟨h1, -⟩) <;> rw [hact] at h1 <;> exact absurd h1 (by decide)
    have hvarabs : |(p2 - r.price_at_decision) / r.price_at_decision| >
        s.policy.threshold := by
      rwa [abs_div, abs_of_pos hp1]
    rw [if_neg hc1]
    rw [if_pos (⟨hact, hvarabs⟩ : r.action = Agente.Action.MANTER ∧
      |(p2 - r.price_at_decision) / r.price_at_decision| > s.policy.threshold)]
    have htt' : s.policy.threshold *
        (1 - min (s.policy.learning_rate *
          (1 + |(p2 - r.price_at_decision) / r.price_at_decision| * 10)) 0.20) <
        s.policy.threshold := by
      nlinarith [hdyn, ht]
    have hgoal : max s.policy.min_threshold (min s.policy.max_threshold
        (s.policy.threshold * (1 - min (s.policy.learning_rate *
          (1 + |(p2 - r.price_at_decision) / r.price_at_decision| * 10)) 0.20))) <
        s.policy.threshold :=
      max_lt hmin (lt_of_le_of_lt (min_le_right _ _) htt')
    simpa using hgoal

/-- **C4, witness.** On `c5state` (default policy, threshold 0.01 strictly
below `max_threshold` 0.05) with a pending COMPRAR at price 100, `learn 90`
strictly increases the threshold. -/
theorem C4_amended_threshold_adjustment_witness :
    Agente.c5state.policy.threshold <
      (⟨⟨0.011, 0.05, 0.002, 0.05⟩,
        [⟨1, 100, 100, Agente.Action.COMPRAR, 0.01, 0, some 0.1, some (-0.1), true⟩],
        2⟩ : Agente.AgentState).policy.threshold :=
  (C4_amended_threshold_adjustment Agente.c5state 90
      (Agente.exRec 1 100 Agente.Action.COMPRAR 0.01) _ _ _
      mostRecentPending_c5state
      (by norm_num [Agente.c5state, Agente.default_policy])
      (by norm_num [Agente.exRec])
      learn_c5state_90).1
    rfl
    (by norm_num [Agente.exRec])
    (by norm_num [Agente.c5state, Agente.default_policy])
    (by norm_num [Agente.c5state, Agente.default_policy])

section C5Helpers

open Agente

/-- Concrete run: on `c5state`, `learn 95` gives `variacao_real = -0.05`,
`dynamic_lr = min(0.05 * 1.5, 0.20) = 0.075`, and the wrong-direction COMPRAR
multiplies the threshold by 1.075 (0.01 → 0.01075, inside the clamp band). -/
lemma learn_c5state_95 :
    learn c5state 95 =
      some (⟨⟨0.01075, 0.05, 0.002, 0.05⟩,
        [⟨1, 100, 100, Action.COMPRAR, 0.01, 0, some 0.075, some (-0.05), true⟩], 2⟩,
        some Msg.aumentou_rigor, -0.05) := by
  simp only [Agente.learn, mostRecentPending_c5state]
  norm_num [exRec, markEvaluated, c5state, default_policy, min_def, max_def, abs]

end C5Helpers

/-- **C5.** In every `learn` call that evaluates a pending record, the
learning rate recorded on the evaluated row is
`dynamic_lr = min(learning_rate * (1 + |variacao_real| * 10), 0.20)`; in
particular, for a realized change of `-0.05` with base learning rate `0.05`,
`dynamic_lr = 0.075`, and a wrong-direction COMPRAR sets the threshold to the
clamp of `threshold * (1 + 0.075)` — i.e. multiplies it by 1.075 before
clamping. -/
theorem C5_dynamic_learning_rate
    (s : Agente.AgentState) (p : ℚ) (r : Agente.DecisionRecord)
    (s' : Agente.AgentState) (m : Agente.Msg) (v : ℚ)
    (hmp : Agente.mostRecentPending s.history = some r)
    (hl : Agente.learn s p = some (s', some m, v)) :
    (∀ q ∈ s'.history, q.id = r.id →
      q.learning_rate_used =
        some (min (s.policy.learning_rate * (1 + |v| * 10)) 0.20)) ∧
    (s.policy.learning_rate = 0.05 → v = -0.05 →
      min (s.policy.learning_rate * (1 + |v| * 10)) 0.20 = 0.075) ∧
    (s.policy.learning_rate = 0.05 → v = -0.05 → r.action = Agente.Action.COMPRAR →
      s'.policy.threshold = max s.policy.min_threshold
        (min s.policy.max_threshold (s.policy.threshold * (1 + 0.075)))) := by
  by_cases hz : r.price_at_decision = 0
  · simp [Agente.learn, hmp, hz] at hl
  · simp only [Agente.learn, hmp, if_neg hz, Option.some.injEq, Prod.mk.injEq] at hl
    obtain ⟨rfl, -, hveq⟩ := hl
    refine ⟨?_, ?_, ?_⟩
    · intro q hq hqid
      simp only [Agente.markEvaluated, List.mem_map] at hq
      obtain ⟨orig, -, horig⟩ := hq
      by_cases hid : orig.id = r.id
      · rw [if_pos hid] at horig
        rw [← horig]
        simp only [hveq]
      · rw [if_neg hid] at horig
        exact absurd (horig ▸ hqid) hid
    · intro hlr hv
      rw [hlr, hv]
      norm_num [min_def, abs]
    · intro hlr hv hact
      have hvar : (p - r.price_at_decision) / r.price_at_decision < 0 := by
        rw [hveq, hv]; norm_num
      have hdyn075 : min (s.policy.learning_rate *
          (1 + |(p - r.price_at_decision) / r.price_at_decision| * 10)) 0.20 =
          0.075 := by
        rw [hveq, hlr, hv]
        norm_num [min_def, abs]
      rw [if_pos (Or.inl (⟨hact, hvar⟩ : r.action = Agente.Action.COMPRAR ∧
        (p - r.price_at_decision) / r.price_at_decision < 0))]
      rw [hdyn075]
      norm_num

/-- **C5, witness.** On `c5state` with `learn 95` (realized change `-0.05`,
base learning rate `0.05`): the dynamic learning rate is exactly `0.075` and
the threshold becomes the clamp of `0.01 * 1.075`. -/
theorem C5_dynamic_learning_rate_witness :
    min (Agente.c5state.policy.learning_rate * (1 + |(-0.05 : ℚ)| * 10)) 0.20 =
      0.075 ∧
    (⟨⟨0.01075, 0.05, 0.002, 0.05⟩,
      [⟨1, 100, 100, Agente.Action.COMPRAR, 0.01, 0, some 0.075, some (-0.05), true⟩],
      2⟩ : Agente.AgentState).policy.threshold =
      max Agente.c5state.policy.min_threshold
        (min Agente.c5state.policy.max_threshold
          (Agente.c5state.policy.threshold * (1 + 0.075))) :=
  ⟨(C5_dynamic_learning_rate Agente.c5state 95
      (Agente.exRec 1 100 Agente.Action.COMPRAR 0.01) _ _ _
      mostRecentPending_c5state learn_c5state_95).2.1 rfl rfl,
   (C5_dynamic_learning_rate Agente.c5state 95
      (Agente.exRec 1 100 Agente.Action.COMPRAR 0.01) _ _ _
      mostRecentPending_c5state learn_c5state_95).2.2 rfl rfl rfl⟩

/-- **C1, witness.** Fresh agent, history `[100]` (shorter than the window, so
volatility is the 0.01 default), predictor returning 101: `delta = 0.01`,
effective threshold `max(0.01, 0.005) = 0.01`, and the classification holds
(the action is MANTER since `delta` is not strictly above the threshold). -/
theorem C1_decide_action_classification_witness :
    ∃ a s', Agente.decide (fun _ => (101 : ℚ)) Agente.initial_state [100] =
        some (s', a, 101, ((101 : ℚ) - 100) / 100) ∧
      (a = Agente.Action.COMPRAR ↔ ((((101 : ℚ) - 100) / 100 : ℚ) : ℝ) >
        max (Agente.initial_state.policy.threshold : ℝ) ((0.01 : ℝ) * 0.5)) ∧
      (a = Agente.Action.VENDER ↔ ((((101 : ℚ) - 100) / 100 : ℚ) : ℝ) <
        -max (Agente.initial_state.policy.threshold : ℝ) ((0.01 : ℝ) * 0.5)) ∧
      (a = Agente.Action.MANTER ↔
        ¬(((((101 : ℚ) - 100) / 100 : ℚ) : ℝ) >
          max (Agente.initial_state.policy.threshold : ℝ) ((0.01 : ℝ) * 0.5)) ∧
        ¬(((((101 : ℚ) - 100) / 100 : ℚ) : ℝ) <
          -max (Agente.initial_state.policy.threshold : ℝ) ((0.01 : ℝ) * 0.5))) ∧
      (Agente.initial_state.policy.threshold : ℝ) ≤
        max (Agente.initial_state.policy.threshold : ℝ) ((0.01 : ℝ) * 0.5) :=
  C1_decide_action_classification (fun _ => 101) Agente.initial_state [100] 100 0.01
    (by norm_num [Agente.initial_state, Agente.default_policy]) rfl (by norm_num)
    (by norm_num [Agente.calcular_volatilidade])

/-- **C3, witness.** The default policy satisfies the clamp invariant, and a
`learn` call on the fresh agent (empty ledger) preserves it. -/
theorem C3_learn_preserves_clamp_invariant_witness :
    Agente.initial_state.policy.min_threshold ≤
      Agente.initial_state.policy.threshold ∧
    Agente.initial_state.policy.threshold ≤
      Agente.initial_state.policy.max_threshold :=
  C3_learn_preserves_clamp_invariant Agente.initial_state 100
    Agente.initial_state none 0
    (by norm_num [Agente.initial_state, Agente.default_policy])
    (by norm_num [Agente.initial_state, Agente.default_policy]) rfl

/-- **C7, witness.** `decide` on the empty history fails. -/
theorem C7_decide_fails_on_degenerate_input_witness :
    Agente.decide (fun _ => 42) Agente.initial_state [] = none :=
  C7_decide_fails_on_degenerate_input (fun _ => 42) Agente.initial_state []
    (Or.inl rfl)

/-- **C8, witness.** On a state whose single ledger record is already
evaluated, `learn 100` is the `(absent, 0)` no-op. -/
theorem C8_learn_no_pending_noop_witness :
    Agente.learn Agente.c8state 100 = some (Agente.c8state, none, 0) :=
  C8_learn_no_pending_noop Agente.c8state 100
    (by simp [Agente.c8state, Agente.exEval])

section C6Helpers

open Agente

/-- The sample mean of a constant list is the constant. -/
lemma sampleMean_replicate (n : ℕ) (c : ℚ) (hn : n ≠ 0) :
    sampleMean (List.replicate n c) = c := by
  simp only [Agente.sampleMean, List.sum_replicate, List.length_replicate,
    nsmul_eq_mul]
  field_simp

/-- The Bessel-corrected sample variance of a constant list is 0. -/
lemma sampleVariance_replicate (n : ℕ) (c : ℚ) : 
    sampleVariance (List.replicate n c) = 0 := by
  rcases Nat.eq_zero_or_pos n with rfl | hn
  · simp [Agente.sampleVariance]
  · simp only [Agente.sampleVariance, sampleMean_replicate n c hn.ne',
      List.map_replicate, sub_self]
    norm_num [List.sum_replicate]

end C6Helpers

/-- **C6.** The volatility estimator returns exactly `0.01` on histories
shorter than the window (5); on histories of length at least 5 (with a
nonzero window mean, so that the division is defined — see C10) it returns
the Bessel-corrected sample standard deviation of the last 5 prices divided
by their mean; consequently every constant nonzero history of length ≥ 5 has
volatility 0. -/
theorem C6_volatility_estimator (prices : List ℚ) :
    (prices.length < 5 → Agente.calcular_volatilidade prices 5 = some 0.01) ∧
    (5 ≤ prices.length → Agente.sampleMean (Agente.lastWindow prices 5) ≠ 0 →
      Agente.calcular_volatilidade prices 5 =
        some (Real.sqrt ((Agente.sampleVariance (Agente.lastWindow prices 5) : ℚ) : ℝ) /
          ((Agente.sampleMean (Agente.lastWindow prices 5) : ℚ) : ℝ))) ∧
    (∀ c : ℚ, c ≠ 0 → (∀ x ∈ prices, x = c) → 5 ≤ prices.length →
      Agente.calcular_volatilidade prices 5 = some 0) := by
  have part1 : prices.length < 5 → Agente.calcular_volatilidade prices 5 = some 0.01 :=
    fun hlen => by simp only [Agente.calcular_volatilidade, if_pos hlen]
  have part2 : 5 ≤ prices.length →
      Agente.sampleMean (Agente.lastWindow prices 5) ≠ 0 →
      Agente.calcular_volatilidade prices 5 =
        some (Real.sqrt ((Agente.sampleVariance (Agente.lastWindow prices 5) : ℚ) : ℝ) /
          ((Agente.sampleMean (Agente.lastWindow prices 5) : ℚ) : ℝ)) := by
    intro hlen havg
    simp only [Agente.calcular_volatilidade, if_neg (not_lt.mpr hlen), if_neg havg]
  refine ⟨part1, part2, ?_⟩
  intro c hc hconst hlen
  have hrepl : Agente.lastWindow prices 5 = List.replicate 5 c := by
    rw [List.eq_replicate_iff]
    refine ⟨?_, fun x hx => hconst x (List.mem_of_mem_drop hx)⟩
    simp only [Agente.lastWindow, List.length_drop]
    omega
  have hmean : Agente.sampleMean (Agente.lastWindow prices 5) = c := by
    rw [hrepl]; exact sampleMean_replicate 5 c (by norm_num)
  have hvar : Agente.sampleVariance (Agente.lastWindow prices 5) = 0 := by
    rw [hrepl]; exact sampleVariance_replicate 5 c
  have hne : Agente.sampleMean (Agente.lastWindow prices 5) ≠ 0 := by
    rw [hmean]; exact hc
  rw [part2 hlen hne, hvar, hmean]
  norm_num

/-- **C6, witness.** A one-element history gets the 0.01 default; the constant
history `[3,3,3,3,3]` (length 5) has volatility exactly 0. -/
theorem C6_volatility_estimator_witness :
    Agente.calcular_volatilidade [1] 5 = some 0.01 ∧
    Agente.calcular_volatilidade [3, 3, 3, 3, 3] 5 = some 0 :=
  ⟨(C6_volatility_estimator [1]).1 (by simp),
   (C6_volatility_estimator [3, 3, 3, 3, 3]).2.2 3 (by norm_num)
     (by intro x hx; simpa using hx) (by simp)⟩

/-- **C10.** The division `std_dev / avg` in the volatility estimator is
unguarded: on the history `[-2, -1, 0, 1, 2]` — non-empty, of length 5, with
last price 2 ≠ 0 but window mean 0 — the volatility computation divides by
zero, so `decide` fails even though neither of the spec's stated error
conditions (empty history, zero current price) holds. -/
theorem C10_unguarded_mean_zero_division :
    Agente.c10prices ≠ [] ∧
    Agente.c10prices.getLast? = some 2 ∧ (2 : ℚ) ≠ 0 ∧
    5 ≤ Agente.c10prices.length ∧
    Agente.sampleMean (Agente.lastWindow Agente.c10prices 5) = 0 ∧
    Agente.calcular_volatilidade Agente.c10prices 5 = none ∧
    Agente.decide (fun _ => 1) Agente.initial_state Agente.c10prices = none := by
  have hmean : Agente.sampleMean (Agente.lastWindow Agente.c10prices 5) = 0 := by
    norm_num [Agente.sampleMean, Agente.lastWindow, Agente.c10prices]
  have hvol : Agente.calcular_volatilidade Agente.c10prices 5 = none := by
    simp only [Agente.calcular_volatilidade]
    norm_num [Agente.c10prices, Agente.lastWindow, Agente.sampleMean]
  have hlast : Agente.c10prices.getLast? = some 2 := rfl
  refine ⟨by simp [Agente.c10prices], hlast, by norm_num,
    by simp [Agente.c10prices], hmean, hvol, ?_⟩
  simp [Agente.decide, hlast, hvol]

section C9Helpers

open Agente

/-- The accumulation loop of `_atualizar_metricas` computes the win count
(non-MANTER rows with positive return) and the sum of returns over non-MANTER
rows. -/
lemma foldl_metricsStep (l : List (Action × ℚ)) (a : ℕ) (q : ℚ) :
    l.foldl metricsStep (a, q) =
      (a + (l.filter fun t => t.1 ≠ Action.MANTER ∧ 0 < t.2).length,
       q + ((l.filter fun t => t.1 ≠ Action.MANTER).map Prod.snd).sum) := by
  induction l generalizing a q with
  | nil => simp
  | cons hd tl ih =>
    obtain ⟨act, ret⟩ := hd
    by_cases h1 : act = Action.MANTER
    · subst h1
      rw [List.foldl_cons,
        show metricsStep (a, q) (Action.MANTER, ret) = (a, q) from rfl, ih]
      simp
    · by_cases h2 : (0 : ℚ) < ret
      · rw [List.foldl_cons,
          show metricsStep (a, q) (act, ret) = (a + 1, q + ret) from by
            simp [Agente.metricsStep, h1, h2], ih]
        simp only [List.filter_cons]
        rw [if_pos (by simp [h1, h2] : decide (act ≠ Action.MANTER ∧ 0 < ret) = true),
          if_pos (by simp [h1] : decide (act ≠ Action.MANTER) = true)]
        simp only [List.length_cons, List.map_cons, List.sum_cons, Prod.mk.injEq]
        exact ⟨by omega, by ring⟩
      · rw [List.foldl_cons,
          show metricsStep (a, q) (act, ret) = (a, q + ret) from by
            simp [Agente.metricsStep, h1, h2], ih]
        simp only [List.filter_cons]
        rw [if_neg (by simp [h2] : ¬decide (act ≠ Action.MANTER ∧ 0 < ret) = true),
          if_pos (by simp [h1] : decide (act ≠ Action.MANTER) = true)]
        simp only [List.map_cons, List.sum_cons, Prod.mk.injEq]
        exact ⟨by trivial, by ring⟩

/-- Filtering the (action, return) pairs on non-MANTER equals mapping the
non-MANTER record filter. -/
lemma filter_trades_active (E : List DecisionRecord) :
    ((E.map fun r => (r.action, r.real_return.getD 0)).filter
        fun t => t.1 ≠ Action.MANTER) =
      (E.filter fun r => r.action ≠ Action.MANTER).map
        fun r => (r.action, r.real_return.getD 0) :=
  List.filter_map _ _

/-- Filtering the (action, return) pairs on non-MANTER wins equals mapping the
corresponding record filter. -/
lemma filter_trades_wins (E : List DecisionRecord) :
    ((E.map fun r => (r.action, r.real_return.getD 0)).filter
        fun t => t.1 ≠ Action.MANTER ∧ 0 < t.2) =
      (E.filter fun r => r.action ≠ Action.MANTER ∧ 0 < r.real_return.getD 0).map
        fun r => (r.action, r.real_return.getD 0) :=
  List.filter_map _ _

/-- When MANTER rows carry return 0, summing returns over non-MANTER rows
equals summing over all rows. -/
lemma sum_filter_non_manter (E : List DecisionRecord)
    (h : ∀ r ∈ E, r.action = Action.MANTER → r.real_return.getD 0 = 0) :
    ((E.filter fun r => r.action ≠ Action.MANTER).map
      fun r => r.real_return.getD 0).sum =
      (E.map fun r => r.real_return.getD 0).sum := by
  induction E with
  | nil => rfl
  | cons hd tl ih =>
    have htl := fun r hr => h r (List.mem_cons_of_mem _ hr)
    have hhd := h hd (List.mem_cons_self _ _)
    by_cases hm : hd.action = Action.MANTER
    · rw [List.filter_cons,
        if_neg (by simp [hm] : ¬decide (hd.action ≠ Action.MANTER) = true),
        List.map_cons, List.sum_cons, hhd hm, zero_add, ih htl]
    · rw [List.filter_cons,
        if_pos (by simp [hm] : decide (hd.action ≠ Action.MANTER) = true),
        List.map_cons, List.sum_cons, List.map_cons, List.sum_cons, ih htl]

end C9Helpers

/-- **C9.** For every ledger with at least one evaluated record in which every
evaluated MANTER row carries return 0 (which `learn` guarantees by
construction), the metrics recompute yields: `taxa_de_acerto` equal to the
number of non-MANTER evaluated rows with positive return divided by the number
of non-MANTER evaluated rows (0 when there are none), `trades_ativos` equal to
the number of non-MANTER evaluated rows, and `lucro_acumulado_estimado` equal
to the sum of returns over *all* evaluated rows. -/
theorem C9_metrics_recompute (l : List Agente.DecisionRecord) (thr : ℚ)
    (hne : (l.filter fun r => r.outcome_evaluated = true) ≠ [])
    (hhold : ∀ r ∈ l, r.outcome_evaluated = true →
      r.action = Agente.Action.MANTER → r.real_return.getD 0 = 0) :
    ∃ mtr, Agente.atualizar_metricas l thr = some mtr ∧
      mtr.total_operacoes_avaliadas =
        (l.filter fun r => r.outcome_evaluated = true).length ∧
      mtr.trades_ativos =
        ((l.filter fun r => r.outcome_evaluated = true).filter
          fun r => r.action ≠ Agente.Action.MANTER).length ∧
      mtr.taxa_de_acerto =
        (if 0 < ((l.filter fun r => r.outcome_evaluated = true).filter
              fun r => r.action ≠ Agente.Action.MANTER).length then
          ((((l.filter fun r => r.outcome_evaluated = true).filter
            fun r => r.action ≠ Agente.Action.MANTER ∧
              0 < r.real_return.getD 0).length : ℚ) /
           (((l.filter fun r => r.outcome_evaluated = true).filter
            fun r => r.action ≠ Agente.Action.MANTER).length : ℚ))
        else 0) ∧
      mtr.lucro_acumulado_estimado =
        ((l.filter fun r => r.outcome_evaluated = true).map
          fun r => r.real_return.getD 0).sum := by
  have hlen : ¬((l.filter fun r => r.outcome_evaluated = true).map
      fun r => (r.action, r.real_return.getD 0)).length = 0 := by
    simpa [List.length_map, List.length_eq_zero] using hne
  have hEhold : ∀ r ∈ (l.filter fun r => r.outcome_evaluated = true),
      r.action = Agente.Action.MANTER → r.real_return.getD 0 = 0 := by
    intro r hr
    have hmem := List.mem_filter.mp hr
    exact hhold r hmem.1 (by simpa using hmem.2)
  obtain ⟨mtr, heq⟩ : ∃ mtr, Agente.atualizar_metricas l thr = some mtr := by
    simp only [Agente.atualizar_metricas, if_neg hlen]
    exact ⟨_, rfl⟩
  refine ⟨mtr, heq, ?_⟩
  simp only [Agente.atualizar_metricas, if_neg hlen, Option.some.injEq] at heq
  subst heq
  refine ⟨by simp [List.length_map], ?_, ?_, ?_⟩
  · simp only [filter_trades_active, List.length_map]
  · simp only [foldl_metricsStep, zero_add, filter_trades_active,
      filter_trades_wins, List.length_map]
  · simp only [foldl_metricsStep, zero_add, filter_trades_active, List.map_map]
    exact sum_filter_non_manter _ hEhold

/-- **C9, witness.** With exactly three evaluated records — a COMPRAR with
positive return, a VENDER with negative return and a MANTER — the metrics give
`taxa_de_acerto = 1/2` (50%), `trades_ativos = 2`, three evaluated operations,
and cumulative return `0.02 - 0.03 + 0 = -0.01`. -/
theorem C9_metrics_recompute_witness :
    ∃ mtr, Agente.atualizar_metricas Agente.c9history 0.01 = some mtr ∧
      mtr.total_operacoes_avaliadas = 3 ∧
      mtr.trades_ativos = 2 ∧
      mtr.taxa_de_acerto = 1 / 2 ∧
      mtr.lucro_acumulado_estimado = -0.01 := by
  obtain ⟨mtr, heq, h1, h2, h3, h4⟩ :=
    C9_metrics_recompute Agente.c9history 0.01
      (by simp [Agente.c9history, Agente.exEval])
      (by
        intro r hr hev hm
        simp only [Agente.c9history, List.mem_cons, List.not_mem_nil,
          or_false] at hr
        rcases hr with rfl | rfl | rfl <;> simp_all [Agente.exEval])
  refine ⟨mtr, heq, ?_, ?_, ?_, ?_⟩ <;>
    [rw [h1]; rw [h2]; rw [h3]; rw [h4]] <;>
    simp [Agente.c9history, Agente.exEval, List.filter_cons] <;>
    norm_num

section C2WitnessHelpers

open Agente

/-- Concrete run: on `c2state` (two pending records), `learn 110` evaluates
the id-2 record (`variacao_real = 0.1`, right-direction COMPRAR, no threshold
adjustment) and leaves the id-1 record untouched. -/
lemma learn_c2state_110 :
    learn c2state 110 =
      some (⟨⟨0.01, 0.05, 0.002, 0.05⟩,
        [exRec 1 100 Action.COMPRAR 0.01,
         ⟨2, 100, 100, Action.COMPRAR, 0.01, 0, some 0.1, some 0.1, true⟩], 3⟩,
        some Msg.mantendo_rigor, 0.1) := by
  simp only [Agente.learn, mostRecentPending_c2state]
  norm_num [exRec, markEvaluated, c2state, default_policy, min_def, max_def, abs]
  simp

end C2WitnessHelpers

/-- **C2 (amended), witness.** On the two-pending-record ledger `c2state`,
the fetched record is the pending one of largest id (2), `learn 110` marks the
id-2 row evaluated, and every other row is carried over unchanged. -/
theorem C2_amended_learn_evaluates_largest_id_witness :
    Agente.exRec 2 100 Agente.Action.COMPRAR 0.01 ∈ Agente.c2state.history ∧
    (Agente.exRec 2 100 Agente.Action.COMPRAR 0.01).outcome_evaluated = false ∧
    (∀ q ∈ Agente.c2state.history, q.outcome_evaluated = false →
      q.id ≤ (Agente.exRec 2 100 Agente.Action.COMPRAR 0.01).id) ∧
    (∀ q ∈ [Agente.exRec 1 100 Agente.Action.COMPRAR 0.01,
        (⟨2, 100, 100, Agente.Action.COMPRAR, 0.01, 0, some 0.1, some 0.1, true⟩ :
          Agente.DecisionRecord)],
      q.id = (Agente.exRec 2 100 Agente.Action.COMPRAR 0.01).id →
      q.outcome_evaluated = true) ∧
    (∀ q ∈ [Agente.exRec 1 100 Agente.Action.COMPRAR 0.01,
        (⟨2, 100, 100, Agente.Action.COMPRAR, 0.01, 0, some 0.1, some 0.1, true⟩ :
          Agente.DecisionRecord)],
      q.id ≠ (Agente.exRec 2 100 Agente.Action.COMPRAR 0.01).id →
      q ∈ Agente.c2state.history) :=
  C2_amended_learn_evaluates_largest_id Agente.c2state 110
    (Agente.exRec 2 100 Agente.Action.COMPRAR 0.01) _
    mostRecentPending_c2state learn_c2state_110
